import Mathlib

/-!
Verification of the HP48 infrared decoder/emitter repository.

The receiver side (src/ir_reciever/ir_reciever.c) is embedded as pure
functions over a state record mirroring the module's global variables;
machine integers are modelled as Nat with explicit reductions modulo
2^8, 2^16 and 2^64 where the C types wrap.  The emitter side
(src/ir_emitter/ir_emitter.c) is embedded as trace-producing functions:
each call returns the list of line-level actions (set/clear the LED pin,
delay for a fixed duration) it performs together with the updated state
of the output pin.
-/

set_option maxRecDepth 20000

namespace HP48

/-! ### Receiver: constants from ir_reciever.c -/

def UINT8_MOD : Nat := 2 ^ 8

def UINT16_MOD : Nat := 2 ^ 16

def UINT64_MOD : Nat := 2 ^ 64

def EVENT_BUFFER_SIZE : Nat := 30

def DATA_BUFFER_SIZE : Nat := 12

def FIRST_BIT_POS : Nat := 51

def SECOND_BIT_POS : Nat := 47

def THIRD_BIT_POS : Nat := 43

def FOURTH_BIT_POS : Nat := 39

def FIFTH_BIT_POS : Nat := 35

def SIXTH_BIT_POS : Nat := 31

def SEVENTH_BIT_POS : Nat := 27

def EIGHTH_BIT_POS : Nat := 23

/-! ### Receiver: module state (the static globals of ir_reciever.c) -/

structure RxState where
  g_last_event : Nat
  g_byte_cnt : Nat
  g_virtual_cnt : Nat
  g_is_edge_falling : Bool
  g_is_event_buffer_full : Bool
  g_event_buffer_index : Nat
  g_data_buffer : List Nat
  g_event_buffer : List Nat
deriving DecidableEq

/-- Embeds IR_Reciever_init together with the zero initialisation of the
static buffers at program start. -/
def IR_Reciever_init : RxState :=
  { g_last_event := 0
    g_byte_cnt := 0
    g_virtual_cnt := 0
    g_is_edge_falling := true
    g_is_event_buffer_full := false
    g_event_buffer_index := 0
    g_data_buffer := List.replicate DATA_BUFFER_SIZE 0
    g_event_buffer := List.replicate EVENT_BUFFER_SIZE 0 }

/-! ### Receiver: decoding (update_data_buffer and helpers) -/

/-- Embeds write_bit: sets or clears bit `bit` of the byte under
construction depending on the logic level (uint8 arithmetic). -/
def write_bit (bit : Nat) (logic_level : Bool) (byte : Nat) : Nat :=
  if logic_level then byte ||| (1 <<< bit)
  else byte &&& ((UINT8_MOD - 1) ^^^ (1 <<< bit))

/-- Embeds find_bit_position: the switch over the eight bit-position
offsets; any other position leaves the byte unchanged. -/
def find_bit_position (bit_position : Nat) (logic_level : Bool) (byte : Nat) : Nat :=
  if bit_position = FIRST_BIT_POS then write_bit 0 logic_level byte
  else if bit_position = SECOND_BIT_POS then write_bit 1 logic_level byte
  else if bit_position = THIRD_BIT_POS then write_bit 2 logic_level byte
  else if bit_position = FOURTH_BIT_POS then write_bit 3 logic_level byte
  else if bit_position = FIFTH_BIT_POS then write_bit 4 logic_level byte
  else if bit_position = SIXTH_BIT_POS then write_bit 5 logic_level byte
  else if bit_position = SEVENTH_BIT_POS then write_bit 6 logic_level byte
  else if bit_position = EIGHTH_BIT_POS then write_bit 7 logic_level byte
  else byte

/-- Embeds the pulse-width computation
`uint16_t pulse_width = (uint16_t)g_event_buffer[i] - g_last_event;`
for uint64 operands: the difference truncated to 16 bits. -/
def pulse_width_calc (event last : Nat) : Nat :=
  (event % UINT16_MOD + (UINT64_MOD - last % UINT64_MOD)) % UINT16_MOD

/-- Embeds the three-band classification of a pulse width into a
quarter-of-bit count; outside every band the previous value is kept. -/
def quarter_classify (pulse_width quater_of_bit : Nat) : Nat :=
  if 20 < pulse_width ∧ pulse_width < 100 then 1
  else if 120 < pulse_width ∧ pulse_width < 200 then 3
  else if 220 < pulse_width ∧ pulse_width < 300 then 5
  else quater_of_bit

/-- Embeds the inner loop of update_data_buffer: advances event_cnt one
quarter at a time, and writes the state only when event_cnt equals
EIGHTH_BIT_POS (the condition actually present at ir_reciever.c:268).
Returns the advanced event counter and the byte. -/
def quarter_loop : Nat → Nat → Bool → Nat → Nat × Nat
  | 0, event_cnt, _, byte => (event_cnt, byte)
  | j + 1, event_cnt, state, byte =>
    let byte' := if event_cnt = EIGHTH_BIT_POS
      then find_bit_position event_cnt state byte else byte
    quarter_loop j (event_cnt + 1) state byte'

/-- Embeds the iterations i = 1..29 of update_data_buffer: each event is
paired with the previous one, classified, consumed quarter by quarter,
and the logic state is flipped.  Returns
(last event, event_cnt, quater_of_bit, state, byte). -/
def decode_loop : List Nat → Nat → Nat → Nat → Bool → Nat →
    Nat × Nat × Nat × Bool × Nat
  | [], last, event_cnt, quater, state, byte => (last, event_cnt, quater, state, byte)
  | e :: rest, last, event_cnt, quater, state, byte =>
    let pw := pulse_width_calc e last
    let q := quarter_classify pw quater
    let r := quarter_loop q event_cnt state byte
    decode_loop rest e r.1 q (!state) r.2

/-- Embeds update_data_buffer as a function of the event window, the
incoming g_last_event and the byte g_data_buffer[g_byte_cnt] it mutates;
returns the updated (g_last_event, byte).  Iteration i = 0 only records
the first event as the reference point. -/
def update_data_buffer (events : List Nat) (last0 byte0 : Nat) : Nat × Nat :=
  match events with
  | [] => (last0, byte0)
  | e0 :: rest =>
    let r := decode_loop rest e0 0 0 true byte0
    (r.1, r.2.2.2.2)

/-- Modelled from the spec: the same decoding loop, but following
section 4.5(c) of the spec, which writes the state whenever event_cnt
equals ANY of the eight offsets 23..51 (i.e. find_bit_position is
consulted at every quarter step), where the source at ir_reciever.c:268
consults it only when event_cnt equals 23. -/
def quarter_loop_spec : Nat → Nat → Bool → Nat → Nat × Nat
  | 0, event_cnt, _, byte => (event_cnt, byte)
  | j + 1, event_cnt, state, byte =>
    quarter_loop_spec j (event_cnt + 1) state (find_bit_position event_cnt state byte)

/-- Modelled from the spec: decode_loop with the spec's quarter loop. -/
def decode_loop_spec : List Nat → Nat → Nat → Nat → Bool → Nat →
    Nat × Nat × Nat × Bool × Nat
  | [], last, event_cnt, quater, state, byte => (last, event_cnt, quater, state, byte)
  | e :: rest, last, event_cnt, quater, state, byte =>
    let pw := pulse_width_calc e last
    let q := quarter_classify pw quater
    let r := quarter_loop_spec q event_cnt state byte
    decode_loop_spec rest e r.1 q (!state) r.2

/-- Modelled from the spec: update_data_buffer with the spec's quarter
loop, used to compare the source behaviour with the specified one. -/
def update_data_buffer_spec (events : List Nat) (last0 byte0 : Nat) : Nat × Nat :=
  match events with
  | [] => (last0, byte0)
  | e0 :: rest =>
    let r := decode_loop_spec rest e0 0 0 true byte0
    (r.1, r.2.2.2.2)

/-! ### Receiver: API and interrupt service routines -/

/-- Embeds IR_is_data_available: decode a pending full window into
g_data_buffer[g_byte_cnt] and clear the flag, then report availability
exactly when g_byte_cnt has reached 12, resetting it in that case. -/
def IR_is_data_available (s : RxState) : Bool × RxState :=
  let s1 :=
    if s.g_is_event_buffer_full then
      let r := update_data_buffer s.g_event_buffer s.g_last_event
        (s.g_data_buffer.getD s.g_byte_cnt 0)
      { s with
        g_last_event := r.1
        g_data_buffer := s.g_data_buffer.set s.g_byte_cnt r.2
        g_is_event_buffer_full := false }
    else s
  if s1.g_byte_cnt = DATA_BUFFER_SIZE then (true, { s1 with g_byte_cnt := 0 })
  else (false, s1)

/-- Embeds ISR(TIMER1_OVF_vect): the 64-bit virtual counter gains
0x10000 (uint64 arithmetic, hence reduced modulo 2^64). -/
def TIMER1_OVF_vect (s : RxState) : RxState :=
  { s with g_virtual_cnt := (s.g_virtual_cnt + 0x10000) % UINT64_MOD }

/-- Embeds ISR(TIMER1_CAPT_vect): store virtual counter plus the 16-bit
captured timer value at the current index, toggle the edge polarity,
advance the index (uint8), and on reaching 30 mark the window full,
reset the index and bump the byte counter (uint8). -/
def TIMER1_CAPT_vect (s : RxState) (timer_value : Nat) : RxState :=
  let ts := (s.g_virtual_cnt + timer_value % UINT16_MOD) % UINT64_MOD
  let s1 : RxState :=
    { s with
      g_is_edge_falling := !s.g_is_edge_falling
      g_event_buffer := s.g_event_buffer.set s.g_event_buffer_index ts
      g_event_buffer_index := (s.g_event_buffer_index + 1) % UINT8_MOD }
  if s1.g_event_buffer_index = EVENT_BUFFER_SIZE then
    { s1 with
      g_byte_cnt := (s1.g_byte_cnt + 1) % UINT8_MOD
      g_event_buffer_index := 0
      g_is_event_buffer_full := true }
  else s1

/-! ### Receiver: event traces (interleavings of the two ISRs and the
foreground poll) -/

inductive RxEvent where
  | overflow : RxEvent
  | capture : Nat → RxEvent
  | poll : RxEvent
deriving DecidableEq

def rx_step (s : RxState) : RxEvent → RxState
  | .overflow => TIMER1_OVF_vect s
  | .capture tv => TIMER1_CAPT_vect s tv
  | .poll => (IR_is_data_available s).2

def rx_run (s : RxState) (evs : List RxEvent) : RxState :=
  evs.foldl rx_step s

def count_overflows : List RxEvent → Nat
  | [] => 0
  | RxEvent.overflow :: rest => count_overflows rest + 1
  | _ :: rest => count_overflows rest

/-! ### Emitter: timing constants from ir_emitter.c (microseconds,
exact rational arithmetic; STOP_TIME and START_TIME in milliseconds) -/

def CYCLES : Nat := 8

def PERIOD : ℚ := 30.3

def HALF_BIT_TIME : ℚ := 427.25

def STOP_TIME : ℚ := 2.84

def START_TIME : ℚ := 31.95

/-- Modelled from the spec: the macro LOW_LEVEL1_TIME in ir_emitter.c
refers to CYCLES_FREQUENCY, which is defined nowhere in the repository;
section 6 of the spec derives ShortLow from the 30.3 microsecond burst
period (the PERIOD constant defined directly above the macro), so the
missing constant is modelled as that period. -/
def CYCLES_FREQUENCY : ℚ := PERIOD

def LOW_LEVEL1_TIME : ℚ := HALF_BIT_TIME - (CYCLES * CYCLES_FREQUENCY)

def LOW_LEVEL2_TIME : ℚ := HALF_BIT_TIME

def LOW_LEVEL3_TIME : ℚ := LOW_LEVEL1_TIME + LOW_LEVEL2_TIME

def LOW_LEVEL4_TIME : ℚ := LOW_LEVEL1_TIME + (2 * LOW_LEVEL2_TIME)

/-! ### Emitter: pulse levels, commands, and the character tables -/

inductive PulseLevel where
  | HIGH_LEVEL | LOW_LEVEL1 | LOW_LEVEL2 | LOW_LEVEL3 | LOW_LEVEL4
deriving DecidableEq

inductive Commands where
  | GET_COUNTER | CLEAN_MEMORY
deriving DecidableEq

namespace PulseLevel

def g_ascii_ESC : List PulseLevel :=
  [LOW_LEVEL2, HIGH_LEVEL,
   LOW_LEVEL1, HIGH_LEVEL,
   LOW_LEVEL4, HIGH_LEVEL,
   LOW_LEVEL1, HIGH_LEVEL,
   LOW_LEVEL4, HIGH_LEVEL,
   LOW_LEVEL3, HIGH_LEVEL,
   LOW_LEVEL3, HIGH_LEVEL,
   LOW_LEVEL1, HIGH_LEVEL,
   LOW_LEVEL3, HIGH_LEVEL,
   LOW_LEVEL4, HIGH_LEVEL,
   LOW_LEVEL1, HIGH_LEVEL,
   LOW_LEVEL3, HIGH_LEVEL,
   LOW_LEVEL3]

def g_ascii_DP : List PulseLevel :=
  [LOW_LEVEL2, HIGH_LEVEL,
   LOW_LEVEL1, HIGH_LEVEL,
   LOW_LEVEL4, HIGH_LEVEL,
   LOW_LEVEL1, HIGH_LEVEL,
   LOW_LEVEL3, HIGH_LEVEL,
   LOW_LEVEL3, HIGH_LEVEL,
   LOW_LEVEL3, HIGH_LEVEL,
   LOW_LEVEL3, HIGH_LEVEL,
   LOW_LEVEL3, HIGH_LEVEL,
   LOW_LEVEL4, HIGH_LEVEL,
   LOW_LEVEL3, HIGH_LEVEL,
   LOW_LEVEL1, HIGH_LEVEL,
   LOW_LEVEL3]

def g_ascii_Y : List PulseLevel :=
  [HIGH_LEVEL, LOW_LEVEL3,
   HIGH_LEVEL, LOW_LEVEL3,
   HIGH_LEVEL, LOW_LEVEL4,
   HIGH_LEVEL, LOW_LEVEL3,
   HIGH_LEVEL, LOW_LEVEL1,
   HIGH_LEVEL, LOW_LEVEL4,
   HIGH_LEVEL, LOW_LEVEL1,
   HIGH_LEVEL, LOW_LEVEL3,
   HIGH_LEVEL, LOW_LEVEL4,
   HIGH_LEVEL, LOW_LEVEL3,
   HIGH_LEVEL, LOW_LEVEL1,
   HIGH_LEVEL, LOW_LEVEL3]

def g_ascii_P : List PulseLevel :=
  [LOW_LEVEL2, HIGH_LEVEL,
   LOW_LEVEL1, HIGH_LEVEL,
   LOW_LEVEL4, HIGH_LEVEL,
   LOW_LEVEL3, HIGH_LEVEL,
   LOW_LEVEL3, HIGH_LEVEL,
   LOW_LEVEL1, HIGH_LEVEL,
   LOW_LEVEL4, HIGH_LEVEL,
   LOW_LEVEL1, HIGH_LEVEL,
   LOW_LEVEL4, HIGH_LEVEL,
   LOW_LEVEL3, HIGH_LEVEL,
   LOW_LEVEL3, HIGH_LEVEL,
   LOW_LEVEL3, HIGH_LEVEL,
   LOW_LEVEL1]

def g_ascii_3 : List PulseLevel :=
  [LOW_LEVEL2, HIGH_LEVEL,
   LOW_LEVEL3, HIGH_LEVEL,
   LOW_LEVEL3, HIGH_LEVEL,
   LOW_LEVEL3, HIGH_LEVEL,
   LOW_LEVEL3, HIGH_LEVEL,
   LOW_LEVEL3, HIGH_LEVEL,
   LOW_LEVEL1, HIGH_LEVEL,
   LOW_LEVEL3, HIGH_LEVEL,
   LOW_LEVEL4, HIGH_LEVEL,
   LOW_LEVEL3, HIGH_LEVEL,
   LOW_LEVEL1, HIGH_LEVEL,
   LOW_LEVEL3, HIGH_LEVEL,
   LOW_LEVEL3]

def g_ascii_M : List PulseLevel :=
  [LOW_LEVEL2, HIGH_LEVEL,
   LOW_LEVEL3, HIGH_LEVEL,
   LOW_LEVEL1, HIGH_LEVEL,
   LOW_LEVEL4, HIGH_LEVEL,
   LOW_LEVEL3, HIGH_LEVEL,
   LOW_LEVEL1, HIGH_LEVEL,
   LOW_LEVEL4, HIGH_LEVEL,
   LOW_LEVEL3, HIGH_LEVEL,
   LOW_LEVEL1, HIGH_LEVEL,
   LOW_LEVEL3, HIGH_LEVEL,
   LOW_LEVEL4, HIGH_LEVEL,
   LOW_LEVEL1, HIGH_LEVEL,
   LOW_LEVEL3]

def g_ascii_I : List PulseLevel :=
  [LOW_LEVEL2, HIGH_LEVEL,
   LOW_LEVEL1, HIGH_LEVEL,
   LOW_LEVEL4, HIGH_LEVEL,
   LOW_LEVEL3, HIGH_LEVEL,
   LOW_LEVEL3, HIGH_LEVEL,
   LOW_LEVEL1, HIGH_LEVEL,
   LOW_LEVEL4, HIGH_LEVEL,
   LOW_LEVEL3, HIGH_LEVEL,
   LOW_LEVEL1, HIGH_LEVEL,
   LOW_LEVEL4, HIGH_LEVEL,
   LOW_LEVEL3, HIGH_LEVEL,
   LOW_LEVEL1, HIGH_LEVEL,
   LOW_LEVEL3]

def g_ascii_O : List PulseLevel :=
  [LOW_LEVEL2, HIGH_LEVEL,
   LOW_LEVEL1, HIGH_LEVEL,
   LOW_LEVEL4, HIGH_LEVEL,
   LOW_LEVEL3, HIGH_LEVEL,
   LOW_LEVEL3, HIGH_LEVEL,
   LOW_LEVEL1, HIGH_LEVEL,
   LOW_LEVEL4, HIGH_LEVEL,
   LOW_LEVEL3, HIGH_LEVEL,
   LOW_LEVEL1, HIGH_LEVEL,
   LOW_LEVEL3, HIGH_LEVEL,
   LOW_LEVEL3, HIGH_LEVEL,
   LOW_LEVEL3, HIGH_LEVEL,
   LOW_LEVEL3]

def g_ascii_F : List PulseLevel :=
  [HIGH_LEVEL, LOW_LEVEL3,
   HIGH_LEVEL, LOW_LEVEL4,
   HIGH_LEVEL, LOW_LEVEL1,
   HIGH_LEVEL, LOW_LEVEL4,
   HIGH_LEVEL, LOW_LEVEL1,
   HIGH_LEVEL, LOW_LEVEL4,
   HIGH_LEVEL, LOW_LEVEL3,
   HIGH_LEVEL, LOW_LEVEL3,
   HIGH_LEVEL, LOW_LEVEL1,
   HIGH_LEVEL, LOW_LEVEL3,
   HIGH_LEVEL, LOW_LEVEL4,
   HIGH_LEVEL, LOW_LEVEL1]

def g_ascii_FF : List PulseLevel :=
  [HIGH_LEVEL, LOW_LEVEL3,
   HIGH_LEVEL, LOW_LEVEL3,
   HIGH_LEVEL, LOW_LEVEL3,
   HIGH_LEVEL, LOW_LEVEL4,
   HIGH_LEVEL, LOW_LEVEL3,
   HIGH_LEVEL, LOW_LEVEL3,
   HIGH_LEVEL, LOW_LEVEL3,
   HIGH_LEVEL, LOW_LEVEL1,
   HIGH_LEVEL, LOW_LEVEL3,
   HIGH_LEVEL, LOW_LEVEL4,
   HIGH_LEVEL, LOW_LEVEL3,
   HIGH_LEVEL, LOW_LEVEL1]

def g_ascii_EOT : List PulseLevel :=
  [LOW_LEVEL2, HIGH_LEVEL,
   LOW_LEVEL1, HIGH_LEVEL,
   LOW_LEVEL3, HIGH_LEVEL,
   LOW_LEVEL4, HIGH_LEVEL,
   LOW_LEVEL3, HIGH_LEVEL,
   LOW_LEVEL3, HIGH_LEVEL,
   LOW_LEVEL3, HIGH_LEVEL,
   LOW_LEVEL3, HIGH_LEVEL,
   LOW_LEVEL3, HIGH_LEVEL,
   LOW_LEVEL1, HIGH_LEVEL,
   LOW_LEVEL4, HIGH_LEVEL,
   LOW_LEVEL3, HIGH_LEVEL,
   LOW_LEVEL1]

def g_ascii_C : List PulseLevel :=
  [HIGH_LEVEL, LOW_LEVEL4,
   HIGH_LEVEL, LOW_LEVEL3,
   HIGH_LEVEL, LOW_LEVEL3,
   HIGH_LEVEL, LOW_LEVEL3,
   HIGH_LEVEL, LOW_LEVEL1,
   HIGH_LEVEL, LOW_LEVEL4,
   HIGH_LEVEL, LOW_LEVEL3,
   HIGH_LEVEL, LOW_LEVEL3,
   HIGH_LEVEL, LOW_LEVEL3,
   HIGH_LEVEL, LOW_LEVEL1,
   HIGH_LEVEL, LOW_LEVEL3,
   HIGH_LEVEL, LOW_LEVEL3]

def g_ascii_N : List PulseLevel :=
  [LOW_LEVEL2, HIGH_LEVEL,
   LOW_LEVEL1, HIGH_LEVEL,
   LOW_LEVEL4, HIGH_LEVEL,
   LOW_LEVEL3, HIGH_LEVEL,
   LOW_LEVEL3, HIGH_LEVEL,
   LOW_LEVEL1, HIGH_LEVEL,
   LOW_LEVEL4, HIGH_LEVEL,
   LOW_LEVEL3, HIGH_LEVEL,
   LOW_LEVEL1, HIGH_LEVEL,
   LOW_LEVEL3, HIGH_LEVEL,
   LOW_LEVEL3, HIGH_LEVEL,
   LOW_LEVEL4, HIGH_LEVEL,
   LOW_LEVEL1]

def g_ascii_G : List PulseLevel :=
  [HIGH_LEVEL, LOW_LEVEL3,
   HIGH_LEVEL, LOW_LEVEL3,
   HIGH_LEVEL, LOW_LEVEL4,
   HIGH_LEVEL, LOW_LEVEL3,
   HIGH_LEVEL, LOW_LEVEL1,
   HIGH_LEVEL, LOW_LEVEL4,
   HIGH_LEVEL, LOW_LEVEL3,
   HIGH_LEVEL, LOW_LEVEL3,
   HIGH_LEVEL, LOW_LEVEL1,
   HIGH_LEVEL, LOW_LEVEL3,
   HIGH_LEVEL, LOW_LEVEL3,
   HIGH_LEVEL, LOW_LEVEL3]

def g_ascii_DEL : List PulseLevel :=
  [LOW_LEVEL2, HIGH_LEVEL,
   LOW_LEVEL3, HIGH_LEVEL,
   LOW_LEVEL3, HIGH_LEVEL,
   LOW_LEVEL1, HIGH_LEVEL,
   LOW_LEVEL4, HIGH_LEVEL,
   LOW_LEVEL1, HIGH_LEVEL,
   LOW_LEVEL3, HIGH_LEVEL,
   LOW_LEVEL3, HIGH_LEVEL,
   LOW_LEVEL3, HIGH_LEVEL,
   LOW_LEVEL3, HIGH_LEVEL,
   LOW_LEVEL3, HIGH_LEVEL,
   LOW_LEVEL3, HIGH_LEVEL,
   LOW_LEVEL3]

def g_half_start_bits : List PulseLevel :=
  [HIGH_LEVEL, LOW_LEVEL1,
   HIGH_LEVEL, LOW_LEVEL1,
   HIGH_LEVEL, LOW_LEVEL1]

end PulseLevel

export PulseLevel (g_ascii_ESC g_ascii_DP g_ascii_Y g_ascii_P g_ascii_3
  g_ascii_M g_ascii_I g_ascii_O g_ascii_F g_ascii_FF g_ascii_EOT
  g_ascii_C g_ascii_N g_ascii_G g_ascii_DEL g_half_start_bits)

def g_start_cmd : List (List PulseLevel) := [g_ascii_ESC, g_ascii_DP]

def g_stop_cmd : List (List PulseLevel) := [g_ascii_FF, g_ascii_EOT]

def g_get_couter_cmd : List (List PulseLevel) :=
  [g_ascii_Y, g_ascii_P, g_ascii_3, g_ascii_M, g_ascii_I, g_ascii_O, g_ascii_F]

def g_clean_memory_cmd : List (List PulseLevel) :=
  [g_ascii_C, g_ascii_N, g_ascii_F, g_ascii_G, g_ascii_DEL]

/-! ### Emitter: trace semantics.  A call is embedded as the list of
line-level actions it performs, paired with the resulting state of the
output pin (the only mutable state the emitter module touches). -/

inductive LedAction where
  | set_ir_led : LedAction
  | clear_ir_led : LedAction
  | delay_us : ℚ → LedAction
  | delay_ms : ℚ → LedAction
deriving DecidableEq

/-- One on/off carrier cycle of the burst loop in ir_led_transmission. -/
def burst_cycle : List LedAction :=
  [LedAction.set_ir_led, LedAction.delay_us (PERIOD / 2),
   LedAction.clear_ir_led, LedAction.delay_us (PERIOD / 2)]

/-- Embeds ir_led_transmission: a HIGH_LEVEL toggles the pin for CYCLES
carrier cycles (ending with the pin cleared); each low level only
delays, leaving the pin untouched. -/
def ir_led_transmission (level : PulseLevel) (port : Bool) : List LedAction × Bool :=
  match level with
  | .HIGH_LEVEL => ((List.replicate CYCLES burst_cycle).flatten, false)
  | .LOW_LEVEL1 => ([LedAction.delay_us LOW_LEVEL1_TIME], port)
  | .LOW_LEVEL2 => ([LedAction.delay_us LOW_LEVEL2_TIME], port)
  | .LOW_LEVEL3 => ([LedAction.delay_us LOW_LEVEL3_TIME], port)
  | .LOW_LEVEL4 => ([LedAction.delay_us LOW_LEVEL4_TIME], port)

/-- Embeds a for-loop handing each level of a list to the led, as both
loops of frame_transmission do. -/
def levels_transmission : List PulseLevel → Bool → List LedAction × Bool
  | [], port => ([], port)
  | l :: ls, port =>
    let r := ir_led_transmission l port
    let r2 := levels_transmission ls r.2
    (r.1 ++ r2.1, r2.2)

/-- Embeds frame_transmission: the three half-start preamble pairs (the
g_half_start_bits table, the declared referent of the undeclared
identifier half_start_bits in the source loop), then the frame levels,
then the fixed inter-frame delay. -/
def frame_transmission (data_frame : List PulseLevel) (port : Bool) :
    List LedAction × Bool :=
  let r1 := levels_transmission g_half_start_bits port
  let r2 := levels_transmission data_frame r1.2
  (r1.1 ++ r2.1 ++ [LedAction.delay_ms STOP_TIME], r2.2)

/-- Embeds command_transmission: every frame of the command in order. -/
def command_transmission : List (List PulseLevel) → Bool → List LedAction × Bool
  | [], port => ([], port)
  | f :: fs, port =>
    let r := frame_transmission f port
    let r2 := command_transmission fs r.2
    (r.1 ++ r2.1, r2.2)

/-- Embeds IR_send_request: start command, startup delay, the selected
request command, stop command. -/
def IR_send_request (command : Commands) (port : Bool) :
    List LedAction × Bool :=
  let r1 := command_transmission g_start_cmd port
  let r2 :=
    match command with
    | .GET_COUNTER => command_transmission g_get_couter_cmd r1.2
    | .CLEAN_MEMORY => command_transmission g_clean_memory_cmd r1.2
  let r3 := command_transmission g_stop_cmd r2.2
  (r1.1 ++ [LedAction.delay_ms START_TIME] ++ r2.1 ++ r3.1, r3.2)

/-- Embeds IR_Emitter_init: the pin is configured as output and cleared. -/
def IR_Emitter_init_port : Bool := false

/-! ### Concrete inputs used by witnesses and counterexamples -/

/-- A synthetic 30-edge window.  Its inter-edge widths (260 for five
quarters, 160 for three, 60 for one) drive the running quarter count
through the eight documented offsets 23..51 with the toggling decode
state equal to the corresponding bit of 0b10110010 = 178. -/
def c2_window : List Nat :=
  [0, 260, 520, 780, 1040, 1300, 1460, 1720, 1780, 1940, 2100, 2160,
   2320, 2580, 2740, 2800, 2860, 2920, 2980, 3040, 3100, 3160, 3220,
   3280, 3340, 3400, 3460, 3520, 3580, 3640]

/-- One complete 30-capture window of c2_window timestamps followed by
a foreground poll that drains it. -/
def window_poll_trace : List RxEvent :=
  c2_window.map RxEvent.capture ++ [RxEvent.poll]

/-- Twelve complete 30-capture windows of c2_window timestamps, with a
foreground poll draining each of the first eleven windows; the twelfth
window is left pending for the next poll to decode. -/
def twelve_window_trace : List RxEvent :=
  window_poll_trace ++ (window_poll_trace ++ (window_poll_trace
    ++ (window_poll_trace ++ (window_poll_trace ++ (window_poll_trace
    ++ (window_poll_trace ++ (window_poll_trace ++ (window_poll_trace
    ++ (window_poll_trace ++ (window_poll_trace
    ++ c2_window.map RxEvent.capture))))))))))

/-- The receiver state after k completed and drained windows of
c2_window timestamps: bytes 1..k of the data buffer hold the decoded
128 (the source writes window k at index k, leaving index 0 stale). -/
def c10_mid (k : Nat) : RxState :=
  { g_last_event := 3640
    g_byte_cnt := k
    g_virtual_cnt := 0
    g_is_edge_falling := true
    g_is_event_buffer_full := false
    g_event_buffer_index := 0
    g_data_buffer := (List.range 12).map fun i => if 1 ≤ i ∧ i ≤ k then 128 else 0
    g_event_buffer := c2_window }

/-- A receiver state with twelve completed windows pending delivery. -/
def c4_state : RxState :=
  { IR_Reciever_init with
    g_byte_cnt := DATA_BUFFER_SIZE
    g_is_event_buffer_full := true }

/-- A receiver state whose event window has received 29 captures. -/
def c7_state : RxState :=
  { IR_Reciever_init with g_event_buffer_index := 29 }

/-! ### Theorems -/

/-- After any level the pin is low whenever it was low before: a burst
ends with the pin cleared and a low level does not touch it. -/
lemma ir_led_transmission_port (l : PulseLevel) :
    (ir_led_transmission l false).2 = false := by
  cases l <;> rfl

/-- A level list starting from a low pin leaves the pin low. -/
lemma levels_transmission_port (ls : List PulseLevel) :
    (levels_transmission ls false).2 = false := by
  induction ls with
  | nil => rfl
  | cons l ls ih =>
    simp only [levels_transmission]
    rw [ir_led_transmission_port l, ih]

/-- A frame leaves the pin low from any starting state, because the
preamble begins with a burst. -/
lemma frame_transmission_port (f : List PulseLevel) (port : Bool) :
    (frame_transmission f port).2 = false := by
  simp only [frame_transmission, g_half_start_bits, levels_transmission,
    ir_led_transmission]
  exact levels_transmission_port f

/-- C5: sending the clean-memory request emits, in this literal order,
the ESC and DP start frames, the 31.95 ms startup delay, the C, N, F,
G, DEL frames, and the FF and EOT stop frames; and every frame consists
of three (Burst, ShortLow) preamble pairs, then the frame's own levels,
then the fixed 2.84 ms inter-frame delay. -/
theorem C5_clean_memory_sequence :
  (IR_send_request .CLEAN_MEMORY IR_Emitter_init_port).1 =
    (frame_transmission g_ascii_ESC false).1
    ++ (frame_transmission g_ascii_DP false).1
    ++ [LedAction.delay_ms START_TIME]
    ++ (frame_transmission g_ascii_C false).1
    ++ (frame_transmission g_ascii_N false).1
    ++ (frame_transmission g_ascii_F false).1
    ++ (frame_transmission g_ascii_G false).1
    ++ (frame_transmission g_ascii_DEL false).1
    ++ (frame_transmission g_ascii_FF false).1
    ++ (frame_transmission g_ascii_EOT false).1
  ∧ ∀ (f : List PulseLevel) (port : Bool),
      (frame_transmission f port).1 =
        (ir_led_transmission .HIGH_LEVEL port).1
        ++ [LedAction.delay_us LOW_LEVEL1_TIME]
        ++ (ir_led_transmission .HIGH_LEVEL false).1
        ++ [LedAction.delay_us LOW_LEVEL1_TIME]
        ++ (ir_led_transmission .HIGH_LEVEL false).1
        ++ [LedAction.delay_us LOW_LEVEL1_TIME]
        ++ (levels_transmission f false).1
        ++ [LedAction.delay_ms STOP_TIME] := by
  constructor
  · simp only [IR_send_request, IR_Emitter_init_port, g_start_cmd,
      g_clean_memory_cmd, g_stop_cmd, command_transmission,
      frame_transmission_port, List.append_nil, List.append_assoc]
  · intro f port
    simp only [frame_transmission, g_half_start_bits, levels_transmission,
      ir_led_transmission, List.append_assoc, List.nil_append]

/-- C6: the encoder is stateless: the emitted action sequence for a
command does not depend on the state of the output pin, and a second
call with the same command from the state left by the first produces
the identical sequence. -/
theorem C6_encoder_stateless :
  (∀ (command : Commands) (port1 port2 : Bool),
    (IR_send_request command port1).1 = (IR_send_request command port2).1)
  ∧ ∀ (command : Commands) (port : Bool),
      (IR_send_request command ((IR_send_request command port).2)).1
        = (IR_send_request command port).1 := by
  constructor
  · intro command port1 port2
    cases command <;> rfl
  · intro command port
    cases command <;> rfl

/-- C9: the four low-level durations form the exact arithmetic ladder
ShortLow = 427.25 - 8 * 30.3, MediumLow = 427.25, LongLow = ShortLow +
MediumLow, LongerLow = ShortLow + 2 * MediumLow, with the inter-frame
gap 2.84 ms and the post-start gap 31.95 ms. -/
theorem C9_timing_ladder :
  LOW_LEVEL1_TIME = 427.25 - 8 * 30.3
  ∧ LOW_LEVEL2_TIME = 427.25
  ∧ LOW_LEVEL3_TIME = LOW_LEVEL1_TIME + LOW_LEVEL2_TIME
  ∧ LOW_LEVEL4_TIME = LOW_LEVEL1_TIME + 2 * LOW_LEVEL2_TIME
  ∧ STOP_TIME = 2.84
  ∧ START_TIME = 31.95 := by
  refine ⟨?_, rfl, rfl, rfl, rfl, rfl⟩
  norm_num [LOW_LEVEL1_TIME, HALF_BIT_TIME, CYCLES, CYCLES_FREQUENCY, PERIOD]

/-- C3: a 16-bit pulse width is classified as 1 quarter exactly on the
open band (20, 100), as 3 exactly on (120, 200), as 5 exactly on
(220, 300), and any width outside all three bands, the boundary values
20, 100, 120, 200, 220, 300 included, leaves the previous quarter count
unchanged. -/
theorem C3_pulse_width_bands :
  ∀ w prev : Nat,
    ((20 < w ∧ w < 100) → quarter_classify w prev = 1)
    ∧ ((120 < w ∧ w < 200) → quarter_classify w prev = 3)
    ∧ ((220 < w ∧ w < 300) → quarter_classify w prev = 5)
    ∧ (¬(20 < w ∧ w < 100) → ¬(120 < w ∧ w < 200) → ¬(220 < w ∧ w < 300) →
        quarter_classify w prev = prev)
    ∧ ((w = 20 ∨ w = 100 ∨ w = 120 ∨ w = 200 ∨ w = 220 ∨ w = 300) →
        quarter_classify w prev = prev)
    ∧ (prev ≠ 1 → (quarter_classify w prev = 1 ↔ (20 < w ∧ w < 100)))
    ∧ (prev ≠ 3 → (quarter_classify w prev = 3 ↔ (120 < w ∧ w < 200)))
    ∧ (prev ≠ 5 → (quarter_classify w prev = 5 ↔ (220 < w ∧ w < 300))) := by
  intro w prev
  simp only [quarter_classify]
  split_ifs <;> omega

/-- C3 witness: width 60 classifies to one quarter; the boundary widths
20 and 300 keep the previous counts 4 and 5. -/
theorem C3_pulse_width_bands_witness :
  quarter_classify 60 0 = 1
  ∧ quarter_classify 20 4 = 4
  ∧ quarter_classify 300 5 = 5 :=
  ⟨(C3_pulse_width_bands 60 0).1 (by decide),
   (C3_pulse_width_bands 20 4).2.2.2.2.1 (by decide),
   (C3_pulse_width_bands 300 5).2.2.2.2.1 (by decide)⟩

/-- C4: IR_is_data_available always leaves the full flag cleared,
reports true exactly when the byte counter equals 12 (the decode step
never changes the counter), resets the counter to 0 exactly in that
case, stores the decoded byte of a pending full window at index
g_byte_cnt, and an immediately repeated call never reports the same
reception again. -/
theorem C4_is_data_available_contract :
  ∀ s : RxState,
    (IR_is_data_available s).2.g_is_event_buffer_full = false
    ∧ ((IR_is_data_available s).1 = true ↔ s.g_byte_cnt = DATA_BUFFER_SIZE)
    ∧ (IR_is_data_available s).2.g_byte_cnt
        = (if s.g_byte_cnt = DATA_BUFFER_SIZE then 0 else s.g_byte_cnt)
    ∧ (s.g_is_event_buffer_full = true →
        (IR_is_data_available s).2.g_data_buffer
          = s.g_data_buffer.set s.g_byte_cnt
              (update_data_buffer s.g_event_buffer s.g_last_event
                (s.g_data_buffer.getD s.g_byte_cnt 0)).2)
    ∧ ((IR_is_data_available s).1 = true →
        (IR_is_data_available (IR_is_data_available s).2).1 = false) := by
  intro s
  cases hf : s.g_is_event_buffer_full <;>
    by_cases hc : s.g_byte_cnt = DATA_BUFFER_SIZE <;>
      simp only [DATA_BUFFER_SIZE] at hc <;>
        simp [IR_is_data_available, hf, hc, DATA_BUFFER_SIZE]

/-- C4 witness: from a state with twelve completed windows and a
pending full window, the call reports true, stores the decoded byte,
and the repeated call reports false. -/
theorem C4_is_data_available_contract_witness :
  (IR_is_data_available (IR_is_data_available c4_state).2).1 = false
  ∧ (IR_is_data_available c4_state).2.g_data_buffer
      = c4_state.g_data_buffer.set c4_state.g_byte_cnt
          (update_data_buffer c4_state.g_event_buffer c4_state.g_last_event
            (c4_state.g_data_buffer.getD c4_state.g_byte_cnt 0)).2 :=
  ⟨(C4_is_data_available_contract c4_state).2.2.2.2 (by decide),
   (C4_is_data_available_contract c4_state).2.2.2.1 rfl⟩

/-- A run of captures that cannot complete the 30-slot window neither
sets the full flag nor resets the index. -/
lemma captures_below_window :
  ∀ (tvs : List Nat) (s : RxState),
    s.g_is_event_buffer_full = false →
    s.g_event_buffer_index + tvs.length < EVENT_BUFFER_SIZE →
    (rx_run s (tvs.map RxEvent.capture)).g_is_event_buffer_full = false
    ∧ (rx_run s (tvs.map RxEvent.capture)).g_event_buffer_index
        = s.g_event_buffer_index + tvs.length := by
  intro tvs
  induction tvs with
  | nil => intro s h1 _; exact ⟨h1, rfl⟩
  | cons tv rest ih =>
    intro s h1 h2
    have hidx : (s.g_event_buffer_index + 1) % UINT8_MOD = s.g_event_buffer_index + 1 := by
      apply Nat.mod_eq_of_lt
      simp only [EVENT_BUFFER_SIZE] at h2
      simp only [UINT8_MOD]
      omega
    have hne : (s.g_event_buffer_index + 1) % UINT8_MOD ≠ EVENT_BUFFER_SIZE := by
      rw [hidx]
      simp only [EVENT_BUFFER_SIZE, List.length_cons] at h2 ⊢
      omega
    have hstep : TIMER1_CAPT_vect s tv =
        { s with
          g_is_edge_falling := !s.g_is_edge_falling
          g_event_buffer := s.g_event_buffer.set s.g_event_buffer_index
            ((s.g_virtual_cnt + tv % UINT16_MOD) % UINT64_MOD)
          g_event_buffer_index := (s.g_event_buffer_index + 1) % UINT8_MOD } := by
      simp only [TIMER1_CAPT_vect, if_neg hne]
    have hcons : rx_run s ((tv :: rest).map RxEvent.capture)
        = rx_run (TIMER1_CAPT_vect s tv) (rest.map RxEvent.capture) := rfl
    have h1' : (TIMER1_CAPT_vect s tv).g_is_event_buffer_full = false := by
      rw [hstep]; exact h1
    have h2' : (TIMER1_CAPT_vect s tv).g_event_buffer_index + rest.length
        < EVENT_BUFFER_SIZE := by
      rw [hstep]
      show (s.g_event_buffer_index + 1) % UINT8_MOD + rest.length < EVENT_BUFFER_SIZE
      rw [hidx]
      simp only [List.length_cons] at h2
      omega
    obtain ⟨ha, hb⟩ := ih (TIMER1_CAPT_vect s tv) h1' h2'
    rw [hcons]
    refine ⟨ha, ?_⟩
    rw [hb, hstep]
    show (s.g_event_buffer_index + 1) % UINT8_MOD + rest.length
      = s.g_event_buffer_index + (tv :: rest).length
    rw [hidx]
    simp only [List.length_cons]
    omega

/-- C7: a capture stores the timestamp at the current index; when and
only when the incremented index reaches 30, the window is marked full,
the index is reset and the byte counter advances by one (uint8); and
from an initialised receiver, fewer than 30 captures never mark the
window full. -/
theorem C7_capture_isr_window :
  (∀ (s : RxState) (tv : Nat),
    (TIMER1_CAPT_vect s tv).g_event_buffer
      = s.g_event_buffer.set s.g_event_buffer_index
          ((s.g_virtual_cnt + tv % UINT16_MOD) % UINT64_MOD)
    ∧ ((s.g_event_buffer_index + 1) % UINT8_MOD = EVENT_BUFFER_SIZE →
        (TIMER1_CAPT_vect s tv).g_is_event_buffer_full = true
        ∧ (TIMER1_CAPT_vect s tv).g_event_buffer_index = 0
        ∧ (TIMER1_CAPT_vect s tv).g_byte_cnt = (s.g_byte_cnt + 1) % UINT8_MOD)
    ∧ ((s.g_event_buffer_index + 1) % UINT8_MOD ≠ EVENT_BUFFER_SIZE →
        (TIMER1_CAPT_vect s tv).g_is_event_buffer_full = s.g_is_event_buffer_full
        ∧ (TIMER1_CAPT_vect s tv).g_event_buffer_index
            = (s.g_event_buffer_index + 1) % UINT8_MOD
        ∧ (TIMER1_CAPT_vect s tv).g_byte_cnt = s.g_byte_cnt))
  ∧ ∀ tvs : List Nat, tvs.length < EVENT_BUFFER_SIZE →
      (rx_run IR_Reciever_init (tvs.map RxEvent.capture)).g_is_event_buffer_full
        = false
      ∧ (rx_run IR_Reciever_init (tvs.map RxEvent.capture)).g_event_buffer_index
          = tvs.length := by
  constructor
  · intro s tv
    by_cases h : (s.g_event_buffer_index + 1) % UINT8_MOD = EVENT_BUFFER_SIZE <;>
      refine ⟨?_, fun h2 => ?_, fun h2 => ?_⟩ <;>
        simp only [TIMER1_CAPT_vect, h, if_pos, if_neg, if_true, if_false] <;>
          first
          | rfl
          | exact absurd h h2
          | exact absurd h2 h
          | simp [h]
  · intro tvs hlen
    have := captures_below_window tvs IR_Reciever_init rfl
      (by simpa [IR_Reciever_init] using hlen)
    simpa [IR_Reciever_init] using this

/-- C7 witness: the thirtieth capture marks the window full, resets the
index and advances the byte counter; two captures leave the window not
full with index two. -/
theorem C7_capture_isr_window_witness :
  ((TIMER1_CAPT_vect c7_state 0).g_is_event_buffer_full = true
    ∧ (TIMER1_CAPT_vect c7_state 0).g_event_buffer_index = 0
    ∧ (TIMER1_CAPT_vect c7_state 0).g_byte_cnt = (c7_state.g_byte_cnt + 1) % UINT8_MOD)
  ∧ ((rx_run IR_Reciever_init ([3, 5].map RxEvent.capture)).g_is_event_buffer_full
        = false
    ∧ (rx_run IR_Reciever_init ([3, 5].map RxEvent.capture)).g_event_buffer_index
        = ([3, 5] : List Nat).length) :=
  ⟨(C7_capture_isr_window.1 c7_state 0).2.1 (by decide),
   C7_capture_isr_window.2 [3, 5] (by decide)⟩

/-- Writing bit 7 of a byte below 256 leaves its low seven bits
unchanged and keeps it below 256. -/
lemma write_bit7_facts :
  ∀ b : Nat, b < 256 → ∀ lv : Bool,
    write_bit 7 lv b % 128 = b % 128 ∧ write_bit 7 lv b < 256 := by decide

/-- The quarter loop of the source can only ever write bit 7: whatever
the event counter, state and quarter count, the low seven bits of the
byte survive, and the byte stays below 256. -/
lemma quarter_loop_low_bits :
  ∀ (q event_cnt : Nat) (state : Bool) (byte : Nat), byte < 256 →
    (quarter_loop q event_cnt state byte).2 % 128 = byte % 128
    ∧ (quarter_loop q event_cnt state byte).2 < 256 := by
  intro q
  induction q with
  | zero => intro cnt st b hb; exact ⟨rfl, hb⟩
  | succ n ih =>
    intro cnt st b hb
    simp only [quarter_loop]
    by_cases h : cnt = EIGHTH_BIT_POS
    · have hfb : find_bit_position EIGHTH_BIT_POS st b = write_bit 7 st b := by
        norm_num [find_bit_position, FIRST_BIT_POS, SECOND_BIT_POS,
          THIRD_BIT_POS, FOURTH_BIT_POS, FIFTH_BIT_POS, SIXTH_BIT_POS,
          SEVENTH_BIT_POS, EIGHTH_BIT_POS]
      rw [if_pos h, h, hfb]
      obtain ⟨h1, h2⟩ := write_bit7_facts b hb st
      obtain ⟨h3, h4⟩ := ih (EIGHTH_BIT_POS + 1) st (write_bit 7 st b) h2
      exact ⟨h3.trans h1, h4⟩
    · rw [if_neg h]
      exact ih (cnt + 1) st b hb

/-- The outer decode loop preserves the low seven bits of the byte. -/
lemma decode_loop_low_bits :
  ∀ (events : List Nat) (last event_cnt quater : Nat) (state : Bool) (byte : Nat),
    byte < 256 →
    (decode_loop events last event_cnt quater state byte).2.2.2.2 % 128 = byte % 128
    ∧ (decode_loop events last event_cnt quater state byte).2.2.2.2 < 256 := by
  intro events
  induction events with
  | nil => intro last cnt q st b hb; exact ⟨rfl, hb⟩
  | cons e rest ih =>
    intro last cnt q st b hb
    simp only [decode_loop]
    obtain ⟨h1, h2⟩ := quarter_loop_low_bits
      (quarter_classify (pulse_width_calc e last) q) cnt st b hb
    obtain ⟨h3, h4⟩ := ih e
      (quarter_loop (quarter_classify (pulse_width_calc e last) q) cnt st b).1
      (quarter_classify (pulse_width_calc e last) q) (!st)
      (quarter_loop (quarter_classify (pulse_width_calc e last) q) cnt st b).2 h2
    exact ⟨h3.trans h1, h4⟩

/-- C1: refutation of the eight-offset write behaviour: for every
30-edge window and every starting byte below 256, the decode of
update_data_buffer leaves the low seven bits of the byte untouched —
the condition at ir_reciever.c:268 fires only at offset 23, so bits
0..6 (offsets 27..51) are never written. -/
theorem C1_only_bit7_written :
  ∀ (events : List Nat) (last0 byte0 : Nat), byte0 < 256 →
    (update_data_buffer events last0 byte0).2 % 128 = byte0 % 128 := by
  intro events last0 byte0 hb
  cases events with
  | nil => rfl
  | cons e0 rest =>
    simp only [update_data_buffer]
    exact (decode_loop_low_bits rest e0 0 0 true byte0 hb).1

/-- C1 witness: on the synthetic window carrying 0b10110010, the low
seven bits of the byte are still zero after the decode. -/
theorem C1_only_bit7_written_witness :
  (0 : Nat) < 256 ∧ (update_data_buffer c2_window 0 0).2 % 128 = 0 % 128 :=
  ⟨by decide, C1_only_bit7_written c2_window 0 0 (by decide)⟩

/-- C2: the synthetic 30-edge window that places the bits of
0b10110010 at the documented offsets decodes to 128 under the source
(only bit 7, at offset 23, is written), while the spec's decoding of
the very same window yields the claimed 178. -/
theorem C2_synthetic_window_decode :
  update_data_buffer c2_window 0 0 = (3640, 128)
  ∧ update_data_buffer_spec c2_window 0 0 = (3640, 178) := by
  exact ⟨by decide, by decide⟩

/-- Running a trace built by concatenation runs the pieces in turn. -/
lemma rx_run_append (s : RxState) (a b : List RxEvent) :
    rx_run s (a ++ b) = rx_run (rx_run s a) b :=
  List.foldl_append rx_step s a b

/-- C10: after twelve completed windows, eleven of them drained by a
poll, the receiver is left with the byte counter at 12 (the full length
of g_data_buffer) and the window flagged full, and the pending decode
does write the byte under construction: the write_bit calls of the next
poll therefore target g_data_buffer[12], one element past the buffer. -/
theorem C10_twelfth_window_write_index :
  (rx_run IR_Reciever_init twelve_window_trace).g_is_event_buffer_full = true
  ∧ (rx_run IR_Reciever_init twelve_window_trace).g_byte_cnt = DATA_BUFFER_SIZE
  ∧ (update_data_buffer
      (rx_run IR_Reciever_init twelve_window_trace).g_event_buffer
      (rx_run IR_Reciever_init twelve_window_trace).g_last_event
      ((rx_run IR_Reciever_init twelve_window_trace).g_data_buffer.getD
        (rx_run IR_Reciever_init twelve_window_trace).g_byte_cnt 0)).2
    ≠ ((rx_run IR_Reciever_init twelve_window_trace).g_data_buffer.getD
        (rx_run IR_Reciever_init twelve_window_trace).g_byte_cnt 0) := by
  have hrun : rx_run IR_Reciever_init twelve_window_trace
      = { c10_mid 11 with g_byte_cnt := 12, g_is_event_buffer_full := true } := by
    have h0 : rx_run IR_Reciever_init window_poll_trace = c10_mid 1 := by decide
    have h1 : rx_run (c10_mid 1) window_poll_trace = c10_mid 2 := by decide
    have h2 : rx_run (c10_mid 2) window_poll_trace = c10_mid 3 := by decide
    have h3 : rx_run (c10_mid 3) window_poll_trace = c10_mid 4 := by decide
    have h4 : rx_run (c10_mid 4) window_poll_trace = c10_mid 5 := by decide
    have h5 : rx_run (c10_mid 5) window_poll_trace = c10_mid 6 := by decide
    have h6 : rx_run (c10_mid 6) window_poll_trace = c10_mid 7 := by decide
    have h7 : rx_run (c10_mid 7) window_poll_trace = c10_mid 8 := by decide
    have h8 : rx_run (c10_mid 8) window_poll_trace = c10_mid 9 := by decide
    have h9 : rx_run (c10_mid 9) window_poll_trace = c10_mid 10 := by decide
    have h10 : rx_run (c10_mid 10) window_poll_trace = c10_mid 11 := by decide
    have h11 : rx_run (c10_mid 11) (c2_window.map RxEvent.capture)
        = { c10_mid 11 with g_byte_cnt := 12, g_is_event_buffer_full := true } := by
      decide
    simp only [twelve_window_trace]
    rw [rx_run_append, h0, rx_run_append, h1, rx_run_append, h2,
      rx_run_append, h3, rx_run_append, h4, rx_run_append, h5,
      rx_run_append, h6, rx_run_append, h7, rx_run_append, h8,
      rx_run_append, h9, rx_run_append, h10, h11]
  rw [hrun]
  refine ⟨rfl, by decide, by decide⟩

/-- An overflow interrupt adds 2^16 to the virtual counter in uint64
arithmetic. -/
lemma overflow_vc (s : RxState) :
    (TIMER1_OVF_vect s).g_virtual_cnt = (s.g_virtual_cnt + 2 ^ 16) % UINT64_MOD :=
  rfl

/-- A capture interrupt never modifies the virtual counter. -/
lemma capture_vc (s : RxState) (tv : Nat) :
    (TIMER1_CAPT_vect s tv).g_virtual_cnt = s.g_virtual_cnt := by
  simp only [TIMER1_CAPT_vect]
  split <;> rfl

/-- A foreground poll never modifies the virtual counter. -/
lemma poll_vc (s : RxState) :
    ((IR_is_data_available s).2).g_virtual_cnt = s.g_virtual_cnt := by
  simp only [IR_is_data_available]
  split <;> split <;> rfl

/-- Concatenating traces adds their overflow counts. -/
lemma count_overflows_append :
    ∀ a b : List RxEvent,
      count_overflows (a ++ b) = count_overflows a + count_overflows b := by
  intro a b
  induction a with
  | nil => simp [count_overflows]
  | cons e rest ih =>
    cases e with
    | overflow =>
      show count_overflows (RxEvent.overflow :: (rest ++ b)) = _
      simp only [count_overflows]
      rw [ih]
      omega
    | capture tv =>
      show count_overflows (RxEvent.capture tv :: (rest ++ b)) = _
      simp only [count_overflows]
      exact ih
    | poll =>
      show count_overflows (RxEvent.poll :: (rest ++ b)) = _
      simp only [count_overflows]
      exact ih

/-- The virtual counter after any interleaving of interrupts and polls
is the 2^16-fold overflow count, reduced modulo 2^64. -/
lemma rx_run_vc :
  ∀ (evs : List RxEvent) (s : RxState), s.g_virtual_cnt < UINT64_MOD →
    (rx_run s evs).g_virtual_cnt
      = (s.g_virtual_cnt + 2 ^ 16 * count_overflows evs) % UINT64_MOD := by
  intro evs
  induction evs with
  | nil =>
    intro s h
    simp only [rx_run, List.foldl_nil, count_overflows, Nat.mul_zero, Nat.add_zero]
    exact (Nat.mod_eq_of_lt h).symm
  | cons e rest ih =>
    intro s h
    have hcons : rx_run s (e :: rest) = rx_run (rx_step s e) rest := rfl
    rw [hcons]
    cases e with
    | overflow =>
      have hs : rx_step s RxEvent.overflow = TIMER1_OVF_vect s := rfl
      have hlt : (TIMER1_OVF_vect s).g_virtual_cnt < UINT64_MOD := by
        rw [overflow_vc]
        exact Nat.mod_lt _ (by norm_num [UINT64_MOD])
      rw [hs, ih _ hlt, overflow_vc, Nat.mod_add_mod]
      have hct : count_overflows (RxEvent.overflow :: rest)
          = count_overflows rest + 1 := rfl
      rw [hct]
      have harith : s.g_virtual_cnt + 2 ^ 16 + 2 ^ 16 * count_overflows rest
          = s.g_virtual_cnt + 2 ^ 16 * (count_overflows rest + 1) := by ring
      rw [harith]
    | capture tv =>
      have hs : rx_step s (RxEvent.capture tv) = TIMER1_CAPT_vect s tv := rfl
      rw [hs, ih _ (by rw [capture_vc]; exact h), capture_vc]
      rfl
    | poll =>
      have hs : rx_step s RxEvent.poll = (IR_is_data_available s).2 := rfl
      rw [hs, ih _ (by rw [poll_vc]; exact h), poll_vc]
      rfl

/-- The virtual counter after n consecutive overflow interrupts. -/
lemma overflow_iterate_vc :
  ∀ n : Nat, ((TIMER1_OVF_vect)^[n] IR_Reciever_init).g_virtual_cnt
    = (2 ^ 16 * n) % UINT64_MOD := by
  intro n
  induction n with
  | zero => rfl
  | succ k ih =>
    rw [Function.iterate_succ_apply', overflow_vc, ih, Nat.mod_add_mod]
    have harith : 2 ^ 16 * k + 2 ^ 16 = 2 ^ 16 * (k + 1) := by ring
    rw [harith]

/-- C8 counterexample: the uint64 virtual counter does decrease on some
interleaving: at the 2^48-th consecutive overflow interrupt it wraps
from 2^64 - 2^16 to 0. -/
theorem C8_virtual_cnt_wrap_counterexample :
  (TIMER1_OVF_vect ((TIMER1_OVF_vect)^[2 ^ 48 - 1] IR_Reciever_init)).g_virtual_cnt
    < ((TIMER1_OVF_vect)^[2 ^ 48 - 1] IR_Reciever_init).g_virtual_cnt := by
  have h2 : TIMER1_OVF_vect ((TIMER1_OVF_vect)^[2 ^ 48 - 1] IR_Reciever_init)
      = (TIMER1_OVF_vect)^[2 ^ 48] IR_Reciever_init := by
    have hn : (2 ^ 48 : Nat) = (2 ^ 48 - 1) + 1 := by norm_num
    nth_rewrite 2 [hn]
    rw [Function.iterate_succ_apply']
  rw [h2, overflow_iterate_vc, overflow_iterate_vc]
  decide

/-- C8 amended: each overflow adds exactly 2^16 to the virtual counter
modulo 2^64; captures and polls never modify it; each capture stores
the virtual counter plus the 16-bit timer value (mod 2^64) as the
timestamp; after any interleaving from initialisation the counter
equals 2^16 times the overflow count mod 2^64, and it never decreases
while the trace holds fewer than 2^48 overflow events. -/
theorem C8_virtual_clock_amended :
  (∀ s : RxState,
    (TIMER1_OVF_vect s).g_virtual_cnt = (s.g_virtual_cnt + 2 ^ 16) % UINT64_MOD)
  ∧ (∀ (s : RxState) (tv : Nat),
      (TIMER1_CAPT_vect s tv).g_virtual_cnt = s.g_virtual_cnt)
  ∧ (∀ s : RxState, ((IR_is_data_available s).2).g_virtual_cnt = s.g_virtual_cnt)
  ∧ (∀ (s : RxState) (tv : Nat),
      (TIMER1_CAPT_vect s tv).g_event_buffer
        = s.g_event_buffer.set s.g_event_buffer_index
            ((s.g_virtual_cnt + tv % UINT16_MOD) % UINT64_MOD))
  ∧ (∀ evs : List RxEvent,
      (rx_run IR_Reciever_init evs).g_virtual_cnt
        = (2 ^ 16 * count_overflows evs) % UINT64_MOD)
  ∧ (∀ (evs : List RxEvent) (e : RxEvent),
      count_overflows (evs ++ [e]) < 2 ^ 48 →
      (rx_run IR_Reciever_init evs).g_virtual_cnt
        ≤ (rx_run IR_Reciever_init (evs ++ [e])).g_virtual_cnt) := by
  have hinit : ∀ evs : List RxEvent,
      (rx_run IR_Reciever_init evs).g_virtual_cnt
        = (2 ^ 16 * count_overflows evs) % UINT64_MOD := by
    intro evs
    have := rx_run_vc evs IR_Reciever_init (by norm_num [IR_Reciever_init, UINT64_MOD])
    simpa [IR_Reciever_init] using this
  refine ⟨overflow_vc, capture_vc, poll_vc, ?_, hinit, ?_⟩
  · intro s tv
    simp only [TIMER1_CAPT_vect]
    split <;> rfl
  · intro evs e h
    have hcount : count_overflows evs ≤ count_overflows (evs ++ [e]) := by
      rw [count_overflows_append]
      omega
    have hlt2 : 2 ^ 16 * count_overflows (evs ++ [e]) < UINT64_MOD := by
      have hm : 2 ^ 16 * count_overflows (evs ++ [e]) < 2 ^ 16 * 2 ^ 48 :=
        mul_lt_mul_of_pos_left h (by norm_num)
      calc 2 ^ 16 * count_overflows (evs ++ [e]) < 2 ^ 16 * 2 ^ 48 := hm
        _ = UINT64_MOD := by norm_num [UINT64_MOD]
    have hlt1 : 2 ^ 16 * count_overflows evs < UINT64_MOD :=
      Nat.lt_of_le_of_lt (Nat.mul_le_mul_left _ hcount) hlt2
    rw [hinit, hinit, Nat.mod_eq_of_lt hlt1, Nat.mod_eq_of_lt hlt2]
    exact Nat.mul_le_mul_left _ hcount

/-- C8 amended witness: a single overflow event from initialisation
does not decrease the virtual counter. -/
theorem C8_virtual_clock_amended_witness :
  count_overflows ([] ++ [RxEvent.overflow]) < 2 ^ 48
  ∧ (rx_run IR_Reciever_init []).g_virtual_cnt
      ≤ (rx_run IR_Reciever_init ([] ++ [RxEvent.overflow])).g_virtual_cnt :=
  ⟨by decide, C8_virtual_clock_amended.2.2.2.2.2 [] RxEvent.overflow (by decide)⟩

end HP48
